import Mathlib

/-!
Verification of the AIOps host agent's execution core.

The agent (Python) runs operator-supplied commands and scripts, optionally
under another OS identity, and returns captured output.  This development is
a shallow embedding of the relevant modules:

* `CommandExecutor` (agent/src/executor.py) — runs one command line through a
  shell, captures stdout/stderr with a size cap, enforces a timeout.
* `UserSwitch` (agent/src/user_switch.py) — re-expresses a command to run
  under a named identity on Linux via `su`.
* `ScriptExecutor` (agent/src/script_executor.py) — classifies script text,
  materializes it as an ephemeral file, dispatches to the invoker, cleans up.
* `SecurityManager` (agent/src/security.py) — JWT issuance/verification and
  Fernet authenticated encryption.

Python text values (`str`) are embedded as `List Char`; the filesystem scratch
directory as a `List String` of existing temp-file paths.  Child-process
behaviour is an oracle (`RunOutcome`-valued function): the child's exit code
and streams are inputs, and each invocation's spawned command lines are
returned as an explicit trace so "no process was spawned" is statable.
The third-party JWT and Fernet libraries are modelled as ideal symbolic
primitives: an unforgeable MAC keyed by the configured secret, and an ideal
authenticated-encryption scheme keyed by the derived key.
-/

/-- The single-quote character, used by the `su` wrapping. -/
def squote : Char := '\''

/-- Python's `str.isspace` test for the ASCII whitespace characters stripped
by `str.strip()` (space, tab, newline, carriage return, vertical tab, form
feed; non-ASCII whitespace is not exercised by this repository). -/
def pyIsSpace (c : Char) : Bool :=
  c = ' ' || c = '\t' || c = '\n' || c = '\r' || c = '\x0b' || c = '\x0c'

/-- Python's `str.strip()`: remove leading and trailing whitespace. -/
def pyStrip (l : List Char) : List Char :=
  ((l.dropWhile pyIsSpace).reverse.dropWhile pyIsSpace).reverse

/-- Python's `pat in s` substring test. -/
def containsSub (pat : List Char) : List Char → Bool
  | [] => pat.isEmpty
  | c :: rest => pat.isPrefixOf (c :: rest) || containsSub pat rest

/-- Python's `str.lower()` (ASCII case folding suffices here). -/
def pyLower (l : List Char) : List Char := l.map Char.toLower

/-- The result dictionary built by `CommandExecutor.execute` and the script
executor: keys `success`, `output`, `error`, `return_code`. -/
structure ExecResult where
  success : Bool
  output : List Char
  error : List Char
  return_code : Int
deriving DecidableEq, Repr

/-- Outcome of one `subprocess.Popen` + `communicate` call, supplied as an
oracle: the child completed with captured streams and an exit code, the wait
timed out, or `Popen` itself raised (no child was created). -/
inductive RunOutcome where
  | completed (stdout stderr : List Char) (code : Int)
  | timedOut
  | spawnFailed (msg : List Char)

namespace CommandExecutor

/-- Marker appended when stdout is cut at `max_output_size`
(executor.py line 119). -/
def stdoutTruncMarker : List Char := "\n[输出被截断...]".toList

/-- Marker appended when stderr is cut at `max_output_size`
(executor.py line 121). -/
def stderrTruncMarker : List Char := "\n[错误输出被截断...]".toList

/-- stdout post-processing in `_run_command`:
`if len(stdout) > self.max_output_size: stdout = stdout[:max] + marker`. -/
def truncateStdout (max_output_size : Nat) (stdout : List Char) : List Char :=
  if stdout.length > max_output_size then
    stdout.take max_output_size ++ stdoutTruncMarker
  else stdout

/-- stderr post-processing in `_run_command`, independent of stdout. -/
def truncateStderr (max_output_size : Nat) (stderr : List Char) : List Char :=
  if stderr.length > max_output_size then
    stderr.take max_output_size ++ stderrTruncMarker
  else stderr

/-- The timeout error message `f'命令执行超时（超过 {timeout} 秒）'`. -/
def timeoutMessage (timeout : Nat) : List Char :=
  "命令执行超时（超过 ".toList ++ (toString timeout).toList ++ " 秒）".toList

/-- `CommandExecutor._prepare_command_with_user` (executor.py 130-154).
On Linux the command is interpolated, unescaped, into
`f"su - {user} -c '{command}'"`; on Windows and unknown platforms the
original command is returned unchanged (with a warning logged). -/
def prepare_command_with_user (platf : String) (command user : List Char) :
    List Char :=
  if platf = "linux" then
    "su - ".toList ++ user ++ " -c ".toList ++ [squote] ++ command ++ [squote]
  else
    command

/-- `CommandExecutor.execute` (executor.py 26-78) fused with `_run_command`
(80-128).  `spawn` is the child-process oracle.  The second component is the
trace of command lines actually handed to `subprocess.Popen`; on
`spawnFailed` the `Popen` call raised, so no child exists and the trace is
empty.  Note the source returns `success: True` whenever `_run_command`
returns, regardless of the child's exit code. -/
def execute (platf : String) (timeout max_output_size : Nat)
    (spawn : List Char → RunOutcome)
    (command : List Char) (user : Option (List Char)) :
    ExecResult × List (List Char) :=
  let cmd := match user with
    | some u => prepare_command_with_user platf command u
    | none => command
  match spawn cmd with
  | .completed stdout stderr code =>
      ({ success := true,
         output := truncateStdout max_output_size stdout,
         error := truncateStderr max_output_size stderr,
         return_code := code }, [cmd])
  | .timedOut =>
      ({ success := false, output := [],
         error := timeoutMessage timeout, return_code := -1 }, [cmd])
  | .spawnFailed msg =>
      ({ success := false, output := [], error := msg,
         return_code := -1 }, [])

/-- `CommandExecutor.validate_command` (executor.py 156-182): reject empty or
whitespace-only text; scan the deny-list only to log warnings — the scan
never changes the returned value. -/
def dangerous_patterns : List (List Char) :=
  ["rm -rf /".toList, "mkfs".toList, "dd if=/dev/zero".toList]

/-- See `dangerous_patterns`; the filter mirrors the advisory warning loop. -/
def validate_command (command : List Char) : Bool :=
  if command.isEmpty || (pyStrip command).isEmpty then false
  else
    let _warned := dangerous_patterns.filter
      (fun p => containsSub p (pyLower command))
    true

end CommandExecutor

namespace UserSwitch

/-- `UserSwitch._execute_as_user_linux` (user_switch.py 56-108).
`userExists` is the oracle for `_check_user_exists_linux` (an `id` query) and
`runShell` the oracle for the child process.  The second component is the
trace of spawned command lines: when the identity is unknown the function
returns `("", "用户不存在: <user>", -1)` before any `Popen` call. -/
def execute_as_user_linux (userExists : List Char → Bool)
    (runShell : List Char → List Char × List Char × Int)
    (command user : List Char) (working_dir : Option (List Char)) :
    (List Char × List Char × Int) × List (List Char) :=
  if userExists user then
    let full_command := match working_dir with
      | some wd => "cd ".toList ++ [squote] ++ wd ++ [squote] ++
          " && ".toList ++ command
      | none => command
    let su_command := "su -l ".toList ++ user ++ " -c ".toList ++ [squote] ++
      full_command ++ [squote]
    (runShell su_command, [su_command])
  else
    (([], "用户不存在: ".toList ++ user, -1), [])

end UserSwitch

namespace ScriptExecutor

/-- The shebang arm of `_detect_script_type_from_content`
(script_executor.py 176-183).  The source tests
`first_line.startswith('#!/')` and then, in order, substring-matches
`python`, then `bash`/`sh`, then `powershell`/`pwsh`; when the directive
matches none of these arms control falls through to the content heuristics,
modelled here by `none`. -/
def shebangKind (first_line : List Char) : Option String :=
  if ("#!/".toList).isPrefixOf first_line then
    if containsSub ("python".toList) first_line then some "python"
    else if containsSub ("bash".toList) first_line ||
        containsSub ("sh".toList) first_line then some "shell"
    else if containsSub ("powershell".toList) first_line ||
        containsSub ("pwsh".toList) first_line then some "powershell"
    else none
  else none

/-- `ScriptExecutor._detect_script_type_from_content`
(script_executor.py 172-193).  First line = `content.strip().split('\n')[0]`
stripped again; then the shebang arm; otherwise the content heuristics on
the raw/stripped text exactly as in the source. -/
def detect_script_type_from_content (script_content : List Char) : String :=
  let first_line := pyStrip ((pyStrip script_content).takeWhile
    (fun ch => ch != '\n'))
  match shebangKind first_line with
  | some t => t
  | none =>
    if ("import ".toList).isPrefixOf (pyStrip script_content) ||
        containsSub ("def ".toList) script_content then "python"
    else if ("#!".toList).isPrefixOf (pyStrip script_content) ||
        containsSub ("echo".toList) script_content then "shell"
    else if containsSub ("Write-Host".toList) script_content ||
        containsSub ("Get-".toList) script_content then "powershell"
    else "shell"

/-- Extension chosen by `_create_temp_script` for a classified kind
(script_executor.py 200-208). -/
def script_ext (script_type : String) : String :=
  if script_type = "python" then ".py"
  else if script_type = "shell" then ".sh"
  else if script_type = "powershell" then ".ps1"
  else ".sh"

/-- Interpreter command line built by `_execute_python_script` /
`_execute_shell_script` / `_execute_powershell_script` /
`_execute_generic_script` (script_executor.py 221-267). -/
def interpreter_command (platf script_type : String) (path : String) :
    List Char :=
  if script_type = "python" then ("python \"" ++ path ++ "\"").toList
  else if script_type = "shell" then ("bash \"" ++ path ++ "\"").toList
  else if script_type = "powershell" then
    (if platf = "windows" then ("powershell -File \"" ++ path ++ "\"").toList
     else ("pwsh -File \"" ++ path ++ "\"").toList)
  else ("\"" ++ path ++ "\"").toList

/-- `ScriptExecutor._create_temp_script` (script_executor.py 195-219) acting
on the scratch-directory state (the list of existing temp files).
`open(path, 'w')` creates the file; the subsequent content write can raise
(e.g. `OSError` on a full disk) *after* the file exists — `writeOk = false`
models that: the exception propagates (`none`) but the created file remains
in the filesystem state. -/
def create_temp_script (fs : List String) (path : String) (writeOk : Bool) :
    Option String × List String :=
  if writeOk then (some path, path :: fs) else (none, path :: fs)

/-- `ScriptExecutor._cleanup_temp_file` (script_executor.py 281-287):
`os.remove` the path if present; a removal failure is only logged (removal
is modelled as succeeding). -/
def cleanup_temp_file (fs : List String) (path : String) : List String :=
  fs.erase path

/-- `ScriptExecutor.execute_script_content` (script_executor.py 89-139).
Classify, materialize at `temp_dir/tmp_<random_str><ext>`, dispatch the
interpreter command to `CommandExecutor.execute` (which catches its own
exceptions and always returns a result), then `_cleanup_temp_file`.  If an
exception is raised after the temp file was created (modelled by
`writeOk = false`), control jumps to the `except` handler, which returns an
error result *without* running the cleanup line. -/
def execute_script_content (platf : String) (timeout max_output_size : Nat)
    (spawn : List Char → RunOutcome) (fs : List String)
    (temp_dir random_str : String) (writeOk : Bool)
    (script_content : List Char) (user : Option (List Char)) :
    ExecResult × List String :=
  let script_type := detect_script_type_from_content script_content
  let path := temp_dir ++ "/tmp_" ++ random_str ++ script_ext script_type
  match create_temp_script fs path writeOk with
  | (some p, fs1) =>
      let result := (CommandExecutor.execute platf timeout max_output_size
        spawn (interpreter_command platf script_type p) user).1
      (result, cleanup_temp_file fs1 p)
  | (none, fs1) =>
      ({ success := false, output := [],
         error := "数据写入临时脚本失败".toList, return_code := -1 }, fs1)

end ScriptExecutor

namespace SecurityManager

/-- The JWT payload shape built by `generate_api_key` (security.py 150-156)
after `generate_jwt_token` stamps `exp` and `iat` (security.py 63-65). -/
structure JwtPayload where
  user_id : String
  permissions : List String
  api_key : String
  kind : String
  exp : Int
  iat : Int
deriving DecidableEq, Repr

/-- A token as produced by `jwt.encode(payload, secret, 'HS256')`.  The
HS256 library is modelled as an ideal MAC: the signature is the pair of the
signing secret and the signed payload, unforgeable and collision-free by
construction. -/
structure SignedToken where
  payload : JwtPayload
  sig : String × JwtPayload
deriving DecidableEq, Repr

/-- `jwt.encode` under the ideal-MAC model. -/
def jwt_encode (secret : String) (payload : JwtPayload) : SignedToken :=
  ⟨payload, (secret, payload)⟩

/-- `SecurityManager.verify_jwt_token` (security.py 75-97):
`jwt.decode(token, secret, ['HS256'])` returns the payload, or `None` on
`InvalidTokenError` (signature mismatch, modelled as a MAC-pair mismatch) or
`ExpiredSignatureError` (PyJWT with zero leeway rejects `exp <= now`). -/
def verify_jwt_token (secret : String) (now : Int) (t : SignedToken) :
    Option JwtPayload :=
  if t.sig = (secret, t.payload) then
    (if t.payload.exp ≤ now then none else some t.payload)
  else none

/-- `SecurityManager.generate_jwt_token` (security.py 52-73) applied to the
payload shape used by `generate_api_key`: stamps
`exp = now + jwt_expire_hours * 3600` and `iat = now`, then signs. -/
def generate_jwt_token (secret : String) (jwt_expire_hours now : Int)
    (user_id : String) (permissions : List String) (api_key kind : String) :
    SignedToken :=
  jwt_encode secret
    { user_id := user_id, permissions := permissions, api_key := api_key,
      kind := kind, exp := now + jwt_expire_hours * 3600, iat := now }

/-- `SecurityManager.generate_api_key` (security.py 135-168).
`fresh_api_key` stands for the random 32-byte base64url value; the result is
the `{'api_key': ..., 'token': ...}` pair. -/
def generate_api_key (secret : String) (jwt_expire_hours now : Int)
    (user_id : String) (permissions : List String) (fresh_api_key : String) :
    String × SignedToken :=
  (fresh_api_key,
   generate_jwt_token secret jwt_expire_hours now user_id permissions
     fresh_api_key "api_key")

/-- `SecurityManager.validate_token_permissions` (security.py 298-326):
verify the token; on failure return `False`; otherwise require every entry
of `required_permissions` to be present in the payload's permission list. -/
def validate_token_permissions (secret : String) (now : Int)
    (token : SignedToken) (required_permissions : List String) : Bool :=
  match verify_jwt_token secret now token with
  | none => false
  | some payload =>
      required_permissions.all (fun p => payload.permissions.contains p)

/-- The key `_init_fernet` derives (security.py 34-50): the configured
`aes_key` is used directly when it is exactly 32 bytes, otherwise PBKDF2
(fixed salt, 100000 iterations) stretches it.  Both derivations are modelled
as injective symbolic constructors. -/
inductive DerivedKey where
  | direct (secret : String)
  | pbkdf2 (secret : String)
deriving DecidableEq, Repr

/-- `SecurityManager._init_fernet` (security.py 34-50). -/
def init_fernet (aes_key : String) : DerivedKey :=
  if aes_key.length = 32 then .direct aes_key else .pbkdf2 aes_key

/-- A Fernet ciphertext under the ideal authenticated-encryption model: the
token carries its payload together with an unforgeable tag binding the key
and the payload.  Decryption returns the payload only when the tag matches;
any tampering or key mismatch makes verification fail (`InvalidToken`). -/
structure FernetToken where
  body : String
  tag : DerivedKey × String
deriving DecidableEq, Repr

/-- `Fernet.encrypt` under the ideal-AE model. -/
def fernet_encrypt (key : DerivedKey) (data : String) : FernetToken :=
  ⟨data, (key, data)⟩

/-- `Fernet.decrypt` under the ideal-AE model: `none` models the
`InvalidToken` exception. -/
def fernet_decrypt (key : DerivedKey) (t : FernetToken) : Option String :=
  if t.tag = (key, t.body) then some t.body else none

/-- `SecurityManager.encrypt_data` (security.py 99-115). -/
def encrypt_data (aes_key data : String) : FernetToken :=
  fernet_encrypt (init_fernet aes_key) data

/-- `SecurityManager.decrypt_data` (security.py 117-133); the re-raised
decryption exception is the `none` case. -/
def decrypt_data (aes_key : String) (t : FernetToken) : Option String :=
  fernet_decrypt (init_fernet aes_key) t

end SecurityManager

/-- A syntactically well-formed payload whose expiry timestamp 0 lies in the
past at verification time 100, used to exhibit the failing empty-set
capability check. -/
def expiredPayload : SecurityManager.JwtPayload :=
  { user_id := "test_user", permissions := ["exec:command"],
    api_key := "k", kind := "api_key", exp := 0, iat := 0 }

/-- A payload that is unexpired at verification time 10, used as the
concrete verified token of the capability-check witness. -/
def okPayload : SecurityManager.JwtPayload :=
  { user_id := "test_user", permissions := ["exec:command"],
    api_key := "k", kind := "api_key", exp := 50, iat := 0 }

/-! ### Shared list lemmas -/

theorem dropWhile_append_of_all {α : Type} {p : α → Bool} {l₁ l₂ : List α}
    (h : ∀ x ∈ l₁, p x = true) :
    (l₁ ++ l₂).dropWhile p = l₂.dropWhile p := by
  induction l₁ with
  | nil => rfl
  | cons a t ih =>
      rw [List.cons_append,
        List.dropWhile_cons_of_pos (h a (List.mem_cons_self a t))]
      exact ih (fun x hx => h x (List.mem_cons_of_mem a hx))

theorem takeWhile_append_of_mem {α : Type} {p : α → Bool} {l r : List α}
    {q : α} (hq : q ∈ l) (hpq : p q = false) :
    (l ++ r).takeWhile p = l.takeWhile p := by
  induction l with
  | nil => cases hq
  | cons a t ih =>
      by_cases hpa : p a = true
      · have hqt : q ∈ t := by
          rcases List.mem_cons.mp hq with h1 | h1
          · rw [h1, hpa] at hpq; cases hpq
          · exact h1
        rw [List.cons_append, List.takeWhile_cons_of_pos hpa,
          List.takeWhile_cons_of_pos hpa, ih hqt]
      · rw [List.cons_append, List.takeWhile_cons_of_neg hpa,
          List.takeWhile_cons_of_neg hpa]

theorem takeWhile_ne_self_of_mem {α : Type} {p : α → Bool} {l : List α}
    {q : α} (hq : q ∈ l) (hpq : p q = false) :
    l.takeWhile p ≠ l := by
  induction l with
  | nil => cases hq
  | cons a t ih =>
      by_cases hpa : p a = true
      · have hqt : q ∈ t := by
          rcases List.mem_cons.mp hq with h1 | h1
          · rw [h1, hpa] at hpq; cases hpq
          · exact h1
        rw [List.takeWhile_cons_of_pos hpa]
        intro hc
        exact ih hqt (by injection hc)
      · rw [List.takeWhile_cons_of_neg hpa]
        intro hc
        simp at hc

theorem pyStrip_eq_nil_iff (l : List Char) :
    pyStrip l = [] ↔ ∀ x ∈ l, pyIsSpace x = true := by
  unfold pyStrip
  rw [List.reverse_eq_nil_iff, List.dropWhile_eq_nil_iff]
  constructor
  · intro h x hx
    have hx' : x ∈ List.takeWhile pyIsSpace l ++ List.dropWhile pyIsSpace l := by
      rw [List.takeWhile_append_dropWhile]; exact hx
    rcases List.mem_append.mp hx' with h1 | h1
    · exact List.mem_takeWhile_imp h1
    · exact h x (List.mem_reverse.mpr h1)
  · intro h x hx
    exact h x (((List.dropWhile_sublist pyIsSpace).mem) (List.mem_reverse.mp hx))

/-! ### C9 — command validation -/

/-- C9: `validate_command` returns `false` iff the command text is empty or
consists only of whitespace; matching a deny-list pattern (such as the
filesystem-wipe idiom `rm -rf /`) never causes rejection — the function
still returns `true` for non-blank input containing such a pattern. -/
theorem validate_command_rejects_iff_blank (c : List Char) :
    (CommandExecutor.validate_command c = false ↔
      ∀ x ∈ c, pyIsSpace x = true) ∧
    (containsSub ("rm -rf /".toList) (pyLower c) = true →
      ¬ (∀ x ∈ c, pyIsSpace x = true) →
      CommandExecutor.validate_command c = true) := by
  have hmain : CommandExecutor.validate_command c = false ↔
      ∀ x ∈ c, pyIsSpace x = true := by
    unfold CommandExecutor.validate_command
    by_cases h : (c.isEmpty || (pyStrip c).isEmpty) = true
    · rw [if_pos h]
      simp only [true_iff]
      rcases Bool.or_eq_true _ _ |>.mp h with h1 | h1
      · intro x hx
        rw [List.isEmpty_iff.mp h1] at hx
        cases hx
      · exact (pyStrip_eq_nil_iff c).mp (List.isEmpty_iff.mp h1)
    · rw [if_neg h]
      simp only [Bool.true_eq_false, false_iff]
      intro hall
      exact h (by
        rw [Bool.or_eq_true]
        exact Or.inr (List.isEmpty_iff.mpr ((pyStrip_eq_nil_iff c).mpr hall)))
  refine ⟨hmain, fun _ hall => ?_⟩
  cases hv : CommandExecutor.validate_command c
  · exact absurd (hmain.mp hv) hall
  · rfl

/-- Witness for C9 at the concrete deny-listed command `rm -rf /`: the
pattern matches, the text is not blank, and validation still passes. -/
theorem validate_command_rejects_iff_blank_witness :
    CommandExecutor.validate_command ("rm -rf /".toList) = true :=
  (validate_command_rejects_iff_blank ("rm -rf /".toList)).2
    (by decide) (by decide)

/-! ### C10 — the `su` rewrite quotes without escaping -/

/-- The text a POSIX shell would read between the first pair of single
quotes of a command line: drop up to the opening quote, then take until the
next quote. -/
def enclosedInQuotes (s : List Char) : List Char :=
  ((s.dropWhile (fun ch => ch != squote)).drop 1).takeWhile
    (fun ch => ch != squote)

/-- C10: on the POSIX platform `_prepare_command_with_user` returns exactly
`"su - " ++ user ++ " -c '" ++ command ++ "'"` with the command interpolated
without any escaping; consequently, whenever the command contains a single
quote (and the user name does not, so the wrapping quote is the first one),
the text enclosed in the wrapping quotes differs from the original command —
the command is not passed verbatim to the target identity's shell. -/
theorem prepare_command_with_user_unescaped_quoting (u c : List Char) :
    CommandExecutor.prepare_command_with_user "linux" c u =
      "su - ".toList ++ u ++ " -c ".toList ++ [squote] ++ c ++ [squote] ∧
    (squote ∉ u → squote ∈ c →
      enclosedInQuotes (CommandExecutor.prepare_command_with_user "linux" c u)
        ≠ c) := by
  have heq : CommandExecutor.prepare_command_with_user "linux" c u =
      "su - ".toList ++ u ++ " -c ".toList ++ [squote] ++ c ++ [squote] := rfl
  refine ⟨heq, fun hu hc => ?_⟩
  rw [heq]
  unfold enclosedInQuotes
  have hassoc : "su - ".toList ++ u ++ " -c ".toList ++ [squote] ++ c ++
      [squote] =
      ("su - ".toList ++ u ++ " -c ".toList) ++ ([squote] ++ (c ++ [squote])) := by
    simp [List.append_assoc]
  rw [hassoc]
  have hlit1 : ∀ x ∈ "su - ".toList, (x != squote) = true := by decide
  have hlit2 : ∀ x ∈ " -c ".toList, (x != squote) = true := by decide
  have hpre : ∀ x ∈ "su - ".toList ++ u ++ " -c ".toList,
      (x != squote) = true := by
    intro x hx
    rcases List.mem_append.mp hx with hx1 | hx2
    · rcases List.mem_append.mp hx1 with hx3 | hx4
      · exact hlit1 x hx3
      · have hxq : x ≠ squote := fun hxq => hu (hxq ▸ hx4)
        simpa [bne_iff_ne] using hxq
    · exact hlit2 x hx2
  rw [dropWhile_append_of_all hpre]
  have hq : ¬ ((fun ch => ch != squote) squote = true) := by decide
  rw [List.singleton_append,
    List.dropWhile_cons_of_neg (p := fun ch => ch != squote) hq,
    List.drop_succ_cons, List.drop_zero]
  have hqf : (fun ch => ch != squote) squote = false := by decide
  rw [takeWhile_append_of_mem (p := fun ch => ch != squote) hc hqf]
  exact takeWhile_ne_self_of_mem (p := fun ch => ch != squote) hc hqf

/-- Witness for C10 at `user = alice`, `command = echo 'hi'`: the text the
shell reads between the wrapping quotes is not the original command. -/
theorem prepare_command_with_user_unescaped_quoting_witness :
    enclosedInQuotes (CommandExecutor.prepare_command_with_user "linux"
        ("echo ".toList ++ [squote] ++ "hi".toList ++ [squote])
        ("alice".toList)) ≠
      ("echo ".toList ++ [squote] ++ "hi".toList ++ [squote]) :=
  (prepare_command_with_user_unescaped_quoting ("alice".toList)
      ("echo ".toList ++ [squote] ++ "hi".toList ++ [squote])).2
    (by decide) (by decide)

/-! ### C1 — success flag versus exit code -/

/-- C1 evidence: `CommandExecutor.execute` reports `success = true` for a
child process that exits with the non-zero code 127 (the `invalid_command_xyz`
scenario).  The source sets `success: True` whenever `_run_command` returns
without raising, regardless of the exit code, so the claimed invariant
`success == (exit_code == 0 && no internal error)` fails — as does the
repository's own test `test_execute_failure`, which expects
`success is False` with `return_code == 127` on this very input. -/
theorem execute_nonzero_exit_reports_success :
    (CommandExecutor.execute "linux" 300 1048576
        (fun _ => RunOutcome.completed []
          ("/bin/sh: invalid_command_xyz: command not found".toList) 127)
        ("invalid_command_xyz".toList) none).1.success = true ∧
    (CommandExecutor.execute "linux" 300 1048576
        (fun _ => RunOutcome.completed []
          ("/bin/sh: invalid_command_xyz: command not found".toList) 127)
        ("invalid_command_xyz".toList) none).1.return_code = 127 := by
  exact ⟨rfl, rfl⟩

/-! ### C2 — unknown identity short-circuits without spawning -/

/-- C2 (amended): on Linux, `UserSwitch._execute_as_user_linux` with a target
identity that is not in the identity database returns the failure tuple
`("", "用户不存在: <user>", -1)` immediately, and its spawn trace is empty —
no child process is created. -/
theorem execute_as_user_linux_unknown_identity
    (userExists : List Char → Bool)
    (runShell : List Char → List Char × List Char × Int)
    (command user : List Char) (working_dir : Option (List Char))
    (h : userExists user = false) :
    UserSwitch.execute_as_user_linux userExists runShell command user
        working_dir =
      (([], "用户不存在: ".toList ++ user, -1), []) := by
  unfold UserSwitch.execute_as_user_linux
  rw [h]
  rfl

/-- Witness for C2 (amended) with a concrete identity database containing no
user at all and the target identity `ghost`. -/
theorem execute_as_user_linux_unknown_identity_witness :
    UserSwitch.execute_as_user_linux (fun _ => false)
        (fun _ => ([], [], 0)) ("ls -la".toList) ("ghost".toList) none =
      (([], "用户不存在: ".toList ++ "ghost".toList, -1), []) :=
  execute_as_user_linux_unknown_identity (fun _ => false)
    (fun _ => ([], [], 0)) ("ls -la".toList) ("ghost".toList) none rfl

/-- C2 counterexample: the claim as stated fails on the other
identity-switch path.  `CommandExecutor.execute` with a user performs no
existence check: `_prepare_command_with_user` wraps the command in `su`
unconditionally and a child is spawned (non-empty trace) even though the
identity `ghost` does not exist; the spawned `su` merely fails with its own
exit code 1 and the result even reports `success = true`, not the claimed
`success=false` / `exit_code=-1` / no-spawn behaviour. -/
theorem execute_with_unknown_identity_spawns_su :
    (CommandExecutor.execute "linux" 300 1048576
        (fun _ => RunOutcome.completed []
          ("su: user ghost does not exist".toList) 1)
        ("whoami".toList) (some ("ghost".toList))).2 ≠ [] ∧
    (CommandExecutor.execute "linux" 300 1048576
        (fun _ => RunOutcome.completed []
          ("su: user ghost does not exist".toList) 1)
        ("whoami".toList) (some ("ghost".toList))).1.success = true ∧
    (CommandExecutor.execute "linux" 300 1048576
        (fun _ => RunOutcome.completed []
          ("su: user ghost does not exist".toList) 1)
        ("whoami".toList) (some ("ghost".toList))).1.return_code = 1 := by
  refine ⟨?_, rfl, rfl⟩
  intro hcontra
  simp [CommandExecutor.execute] at hcontra

/-! ### C5 — independent stream truncation -/

/-- C5: when the child completes, each captured stream is post-processed
independently: a stream longer than `max_output_size` is returned as exactly
its first `max_output_size` characters followed by that stream's truncation
marker, and each returned stream is a function of that stream alone
(`truncateStdout`/`truncateStderr` applied to it). -/
theorem execute_truncates_streams_independently
    (platf : String) (timeout max_output_size : Nat)
    (spawn : List Char → RunOutcome) (command : List Char)
    (stdout stderr : List Char) (code : Int)
    (hspawn : spawn command = RunOutcome.completed stdout stderr code) :
    ((CommandExecutor.execute platf timeout max_output_size spawn command
        none).1.output = CommandExecutor.truncateStdout max_output_size stdout ∧
     (CommandExecutor.execute platf timeout max_output_size spawn command
        none).1.error = CommandExecutor.truncateStderr max_output_size stderr) ∧
    (stdout.length > max_output_size →
      (CommandExecutor.execute platf timeout max_output_size spawn command
          none).1.output =
        stdout.take max_output_size ++ CommandExecutor.stdoutTruncMarker ∧
      (stdout.take max_output_size).length = max_output_size) ∧
    (stderr.length > max_output_size →
      (CommandExecutor.execute platf timeout max_output_size spawn command
          none).1.error =
        stderr.take max_output_size ++ CommandExecutor.stderrTruncMarker ∧
      (stderr.take max_output_size).length = max_output_size) := by
  have hrun : CommandExecutor.execute platf timeout max_output_size spawn
      command none =
      ({ success := true,
         output := CommandExecutor.truncateStdout max_output_size stdout,
         error := CommandExecutor.truncateStderr max_output_size stderr,
         return_code := code }, [command]) := by
    simp only [CommandExecutor.execute, hspawn]
  refine ⟨⟨by rw [hrun], by rw [hrun]⟩, fun hlen => ⟨?_, ?_⟩,
    fun hlen => ⟨?_, ?_⟩⟩
  · rw [hrun]
    unfold CommandExecutor.truncateStdout
    rw [if_pos hlen]
  · rw [List.length_take]
    omega
  · rw [hrun]
    unfold CommandExecutor.truncateStderr
    rw [if_pos hlen]
  · rw [List.length_take]
    omega

/-- Witness for C5 with `max_output_size = 3`, a 6-character stdout and a
5-character stderr: both streams come back cut at 3 characters with their
markers appended. -/
theorem execute_truncates_streams_independently_witness :
    ((CommandExecutor.execute "linux" 300 3
        (fun _ => RunOutcome.completed ("aaaaaa".toList) ("bbbbb".toList) 0)
        ("yes".toList) none).1.output =
      ("aaaaaa".toList).take 3 ++ CommandExecutor.stdoutTruncMarker ∧
     (("aaaaaa".toList).take 3).length = 3) ∧
    ((CommandExecutor.execute "linux" 300 3
        (fun _ => RunOutcome.completed ("aaaaaa".toList) ("bbbbb".toList) 0)
        ("yes".toList) none).1.error =
      ("bbbbb".toList).take 3 ++ CommandExecutor.stderrTruncMarker ∧
     (("bbbbb".toList).take 3).length = 3) :=
  ⟨(execute_truncates_streams_independently "linux" 300 3 _ _ _ _ 0
      rfl).2.1 (by decide),
   (execute_truncates_streams_independently "linux" 300 3 _ _ _ _ 0
      rfl).2.2 (by decide)⟩

/-! ### C3 — ephemeral script file cleanup -/

/-- C3 (amended): on every path where script execution itself returns a
result — the interpreter dispatch goes through `CommandExecutor.execute`,
which catches its own failures and always produces a result dictionary —
`execute_script_content` deletes the `EphemeralScriptFile` it created before
returning, restoring the scratch directory to its initial state.  (The
exception path is the subject of the counterexample: an exception raised
after creation skips the cleanup line.) -/
theorem execute_script_content_cleans_up_on_return
    (platf : String) (timeout max_output_size : Nat)
    (spawn : List Char → RunOutcome) (fs : List String)
    (temp_dir random_str : String) (writeOk : Bool)
    (script_content : List Char) (user : Option (List Char))
    (h : writeOk = true) :
    (ScriptExecutor.execute_script_content platf timeout max_output_size
        spawn fs temp_dir random_str writeOk script_content user).2 = fs := by
  subst h
  simp only [ScriptExecutor.execute_script_content,
    ScriptExecutor.create_temp_script, if_pos, ScriptExecutor.cleanup_temp_file]
  rw [List.erase_cons_head]

/-- Witness for C3 (amended): a concrete successful run over an empty
scratch directory leaves the scratch directory empty. -/
theorem execute_script_content_cleans_up_on_return_witness :
    (ScriptExecutor.execute_script_content "linux" 300 1048576
        (fun _ => RunOutcome.completed ("hi".toList) [] 0) []
        "/tmp/aiops" "abcd1234" true ("echo hi".toList) none).2 = [] :=
  execute_script_content_cleans_up_on_return "linux" 300 1048576
    (fun _ => RunOutcome.completed ("hi".toList) [] 0) []
    "/tmp/aiops" "abcd1234" true ("echo hi".toList) none rfl

/-- C3 counterexample: the claim as stated ("no exit path leaks the
temporary file, even when an internal exception occurred") is false.  If an
exception is raised after the temp file has been created — here the content
write fails (e.g. `OSError` on a full disk) once `open()` has already
created the file — control reaches the `except` handler of
`execute_script_content`, which returns an error result without running
`_cleanup_temp_file`: the created file is still present in the final
filesystem state. -/
theorem execute_script_content_leaks_on_exception :
    ((ScriptExecutor.execute_script_content "linux" 300 1048576
        (fun _ => RunOutcome.completed [] [] 0) []
        "/tmp/aiops" "abcd1234" false ("echo hi".toList) none).2).contains
      "/tmp/aiops/tmp_abcd1234.sh" = true := by decide

/-! ### C4 — shebang classification -/

/-- C4 evidence: a first-line interpreter directive naming `pwsh` is
classified as `shell`, not `powershell`.  The source checks the `bash`/`sh`
arm before the `powershell`/`pwsh` arm, and `sh` is a substring of both
`powershell` and `pwsh`, so the powershell arm is unreachable for every
directive the claim assigns to it; the repository's own test
`test_detect_script_type_from_content` expects `powershell` for exactly
this input. -/
theorem detect_pwsh_shebang_classified_as_shell :
    ScriptExecutor.detect_script_type_from_content
        ("#!/usr/bin/env pwsh\nWrite-Host hello".toList) = "shell" := by
  decide

/-! ### C6 — capability check -/

/-- C6 counterexample: the claim says the capability check with an empty
required set returns `true` for *every* token, but
`validate_token_permissions` first verifies the token and returns `false`
when verification fails — here a correctly signed token whose expiry (0) is
in the past at verification time 100 fails the empty-set check. -/
theorem validate_token_permissions_empty_fails_on_expired :
    SecurityManager.validate_token_permissions "secret" 100
      (SecurityManager.jwt_encode "secret" expiredPayload) [] = false := by
  decide

/-- C6 (amended): for every token that verifies (signature matches and the
token is unexpired), the capability check with an empty required set returns
`true`, and with a singleton required set `[c]` it returns `true` iff `c` is
a member of the token's capability list. -/
theorem validate_token_permissions_of_verified
    (secret : String) (now : Int) (token : SecurityManager.SignedToken)
    (payload : SecurityManager.JwtPayload)
    (h : SecurityManager.verify_jwt_token secret now token = some payload) :
    SecurityManager.validate_token_permissions secret now token [] = true ∧
    ∀ c : String,
      (SecurityManager.validate_token_permissions secret now token [c] = true ↔
        payload.permissions.contains c = true) := by
  unfold SecurityManager.validate_token_permissions
  rw [h]
  refine ⟨rfl, fun c => ?_⟩
  simp [List.all_cons]

/-- Witness for C6 (amended) with a concrete signed, unexpired token
carrying the capability `exec:command`. -/
theorem validate_token_permissions_of_verified_witness :
    SecurityManager.validate_token_permissions "s" 10
      (SecurityManager.jwt_encode "s" okPayload) [] = true ∧
    (SecurityManager.validate_token_permissions "s" 10
        (SecurityManager.jwt_encode "s" okPayload)
        ["exec:command"] = true ↔
      okPayload.permissions.contains "exec:command" = true) :=
  ⟨(validate_token_permissions_of_verified "s" 10
      (SecurityManager.jwt_encode "s" okPayload) okPayload (by decide)).1,
   (validate_token_permissions_of_verified "s" 10
      (SecurityManager.jwt_encode "s" okPayload) okPayload (by decide)).2
     "exec:command"⟩

/-! ### C7 — token issue/verify round-trip -/

/-- C7: verifying a freshly issued API-key token (same secret, verification
at issuance time, positive configured lifetime) recovers exactly the issued
subject and capability list (the full payload, including
`kind = "api_key"` and the stamped timestamps); and verifying any token
whose expiry timestamp lies in the past returns `none`. -/
theorem generate_api_key_verify_roundtrip
    (secret : String) (jwt_expire_hours now : Int) (user_id : String)
    (permissions : List String) (fresh_api_key : String)
    (h : 1 ≤ jwt_expire_hours) :
    SecurityManager.verify_jwt_token secret now
        (SecurityManager.generate_api_key secret jwt_expire_hours now user_id
          permissions fresh_api_key).2 =
      some { user_id := user_id, permissions := permissions,
             api_key := fresh_api_key, kind := "api_key",
             exp := now + jwt_expire_hours * 3600, iat := now } ∧
    ∀ p : SecurityManager.JwtPayload, p.exp < now →
      SecurityManager.verify_jwt_token secret now
        (SecurityManager.jwt_encode secret p) = none := by
  constructor
  · have hne : ¬ (now + jwt_expire_hours * 3600 ≤ now) := by omega
    simp [SecurityManager.verify_jwt_token, SecurityManager.generate_api_key,
      SecurityManager.generate_jwt_token, SecurityManager.jwt_encode, hne]
  · intro p hp
    have hle : p.exp ≤ now := le_of_lt hp
    simp [SecurityManager.verify_jwt_token, SecurityManager.jwt_encode, hle]

/-- Witness for C7: a token issued at time 0 with a 24-hour lifetime
verifies at time 0 to its full payload, and a correctly signed token whose
expiry 0 lies in the past at time 100 verifies to `none`. -/
theorem generate_api_key_verify_roundtrip_witness :
    SecurityManager.verify_jwt_token "s" 0
        (SecurityManager.generate_api_key "s" 24 0 "test_user"
          ["exec:command"] "k").2 =
      some { user_id := "test_user", permissions := ["exec:command"],
             api_key := "k", kind := "api_key", exp := 0 + 24 * 3600,
             iat := 0 } ∧
    SecurityManager.verify_jwt_token "s" 100
        (SecurityManager.jwt_encode "s" expiredPayload) = none :=
  ⟨(generate_api_key_verify_roundtrip "s" 24 0 "test_user" ["exec:command"]
      "k" (by decide)).1,
   (generate_api_key_verify_roundtrip "s" 24 100 "test_user" ["exec:command"]
      "k" (by decide)).2 expiredPayload (by decide)⟩

/-! ### C8 — authenticated encryption round-trip -/

/-- C8: decrypting the encryption of any string under the same derived key
returns exactly that string; decrypting a tampered ciphertext (body changed,
tag kept) fails, and decrypting under a key whose derivation differs from
the encrypting key's fails — in both cases no value is returned. -/
theorem encrypt_decrypt_roundtrip (aes_key x : String) :
    SecurityManager.decrypt_data aes_key
        (SecurityManager.encrypt_data aes_key x) = some x ∧
    (∀ y : String, y ≠ x →
      SecurityManager.decrypt_data aes_key
        ⟨y, (SecurityManager.encrypt_data aes_key x).tag⟩ = none) ∧
    (∀ other_key : String,
      SecurityManager.init_fernet other_key ≠
        SecurityManager.init_fernet aes_key →
      SecurityManager.decrypt_data other_key
        (SecurityManager.encrypt_data aes_key x) = none) := by
  refine ⟨?_, fun y hy => ?_, fun k hk => ?_⟩
  · simp [SecurityManager.decrypt_data, SecurityManager.encrypt_data,
      SecurityManager.fernet_encrypt, SecurityManager.fernet_decrypt]
  · have hxy : ¬ (x = y) := fun hc => hy hc.symm
    simp [SecurityManager.decrypt_data, SecurityManager.encrypt_data,
      SecurityManager.fernet_encrypt, SecurityManager.fernet_decrypt,
      Prod.ext_iff, hxy]
  · have hkk : ¬ (SecurityManager.init_fernet aes_key =
        SecurityManager.init_fernet k) := fun hc => hk hc.symm
    simp [SecurityManager.decrypt_data, SecurityManager.encrypt_data,
      SecurityManager.fernet_encrypt, SecurityManager.fernet_decrypt,
      Prod.ext_iff, hkk]

/-- Witness for C8 at concrete values: round-trip on `hello` under key `k`,
failure on a tampered body, failure under the differently derived key
`other`. -/
theorem encrypt_decrypt_roundtrip_witness :
    SecurityManager.decrypt_data "k"
        (SecurityManager.encrypt_data "k" "hello") = some "hello" ∧
    SecurityManager.decrypt_data "k"
        ⟨"tampered", (SecurityManager.encrypt_data "k" "hello").tag⟩ = none ∧
    SecurityManager.decrypt_data "other"
        (SecurityManager.encrypt_data "k" "hello") = none :=
  ⟨(encrypt_decrypt_roundtrip "k" "hello").1,
   (encrypt_decrypt_roundtrip "k" "hello").2.1 "tampered" (by decide),
   (encrypt_decrypt_roundtrip "k" "hello").2.2 "other" (by decide)⟩
